import Mathlib

/-!
# Verification of `chatbet_base_models/message_template.py`

A shallow embedding of the message-template module of the
`chatbet-base-models` repository, together with theorems settling the
claims about its callback-contract engine, message-group validators,
links collection and button invariants.

Modelling conventions:
* Python `Optional[str]` is `Option String`; Python truthiness of such a
  value (`None` and `""` are falsy) is the `truthy` predicate below.
* Python exceptions raised by validators are modelled by `Except VErr`,
  with one constructor per distinct failure site.
* JSON-like payload dictionaries are association lists
  `List (String × Val)` with unique keys (Python `dict` semantics:
  lookup by key, `pop` removes, assignment to a fresh key appends).
* `re.compile(needle).search(token)` is an abstract Boolean oracle
  `regexSearch : String → String → Bool` passed as a parameter: the code
  delegates entirely to Python's `re` engine, so the theorems hold for
  every such oracle.
-/

namespace ChatBet

/-- JSON-like payload value (the shapes accepted by `model_validate`). -/
inductive Val where
  | vnull : Val
  | vstr : String → Val
  | vobj : List (String × Val) → Val
  | varr : List Val → Val

/-- Python truthiness of an `Optional[str]`: `None` and `""` are falsy. -/
def truthy : Option String → Bool
  | none => false
  | some s => !(s == "")

/-- `InlineKeyboardButton`: text plus an optional callback token, url and
title (`message_template.py` lines 14–19). -/
structure InlineKeyboardButton where
  text : String
  callback_data : Option String := none
  url : Option String := none
  title : Option String := none
  deriving DecidableEq, Repr

/-- Validation outcome errors, one constructor per failure site of the
source module. -/
inductive VErr where
  /-- pydantic `extra="forbid"`: an unknown key in the payload. -/
  | extraField : String → VErr
  /-- a payload value has the wrong shape for the declared field type. -/
  | typeError : String → VErr
  /-- `InlineKeyboardButton._only_one_action` / `min_length` failures. -/
  | invalidButton : String → VErr
  /-- `require_callbacks`: message present but no callback tokens exposed
  (reports needles, combinator and match mode, as the source message does). -/
  | missingKeyboard : List String → VErr
  /-- `require_callbacks`: tokens present but the rule is unsatisfied
  (reports present tokens and needles, as the source message does). -/
  | unsatisfiedContract : List String → List String → VErr
  /-- a group-level `_require_callbacks` model validator: the named field
  is missing the listed (sorted) callbacks. -/
  | missingCallbacks : String → List String → VErr
  /-- `LinksMessages._validate_links`: more than 100 links. -/
  | tooManyLinks : VErr
  /-- `LinksMessages._validate_links`: duplicate case-insensitive titles. -/
  | duplicateLinkTitle : VErr
  /-- `LinksMessages._require_default_links`: missing required titles
  (sorted) together with the full required set (sorted). -/
  | missingRequiredLinks : List String → List String → VErr
  deriving DecidableEq, Repr

/-- `InlineKeyboardButton._only_one_action` (lines 21–31): Python `if cd
and url` / `if not cd and not url` use truthiness, so `None` and `""`
behave identically here. -/
def onlyOneAction (b : InlineKeyboardButton) : Except VErr InlineKeyboardButton :=
  if truthy b.callback_data && truthy b.url then
    .error (.invalidButton "Button must have either callback_data or url, not both")
  else if !truthy b.callback_data && !truthy b.url then
    .error (.invalidButton "Button must define either callback_data or url")
  else if truthy b.callback_data &&
      (match b.callback_data with | some cd => cd.length > 64 | none => false) then
    .error (.invalidButton "callback_data must be <= 64 characters")
  else
    .ok b

/-- Constructing an `InlineKeyboardButton`: pydantic first enforces
`text: str = Field(min_length=1)`, then runs the `mode="after"` model
validator `_only_one_action`. -/
def mkButton (text : String) (callback_data url title : Option String) :
    Except VErr InlineKeyboardButton :=
  if text.length < 1 then
    .error (.invalidButton "text must have min_length 1")
  else
    onlyOneAction { text := text, callback_data := callback_data, url := url, title := title }

/-- `InlineKeyboardMarkup` (lines 34–36): a 2-D grid of buttons. -/
structure InlineKeyboardMarkup where
  inline_keyboard : List (List InlineKeyboardButton) := []
  deriving DecidableEq, Repr

/-- `AdditionalMessageMarkup` (lines 39–42). -/
structure AdditionalMessageMarkup where
  text : Option String := none
  reply_markup : Option InlineKeyboardMarkup := none
  deriving DecidableEq, Repr

/-- `MessageItem` (lines 48–59): optional text, optional secondary block,
optional inline keyboard. -/
structure MessageItem where
  text : Option String := none
  additional_message : Option AdditionalMessageMarkup := none
  reply_markup : Option InlineKeyboardMarkup := none
  deriving DecidableEq, Repr

/-- `MessageItem._coerce` (lines 61–68) acting on payload values: `None`,
mappings and message objects pass through; a bare string becomes
`{"text": s}`; anything else passes through. -/
def coerceVal (v : Val) : Val :=
  match v with
  | .vstr s => .vobj [("text", .vstr s)]
  | v => v

/-- The per-group `model_validate` preprocessing step
`{k: MessageItem._coerce(v) for k, v in obj.items()}`. -/
def coerceObj (obj : List (String × Val)) : List (String × Val) :=
  obj.map (fun p => (p.1, coerceVal p.2))

/-- Match modes of the contract engine (`MatchMode` literal, line 71);
`pfx`/`sfx` stand for the source's `"prefix"`/`"suffix"` strings. -/
inductive MatchMode where
  | exact | substring | pfx | sfx | regex
  deriving DecidableEq, Repr

/-- The `mode` parameter of `require_callbacks` (AND / OR over needles). -/
inductive Combinator where
  | all | any
  deriving DecidableEq, Repr

/-- Python `s.lower()`, applied code point by code point (kept in the
structural form `⟨·⟩` so that it evaluates by reduction). -/
def pyLower (s : String) : String :=
  ⟨s.data.map Char.toLower⟩

/-- `_normalize` (lines 74–75): lowercase unless case-sensitive. -/
def pyNormalize (caseSensitive : Bool) (s : String) : String :=
  if caseSensitive then s else pyLower s

/-- `_collect_callbacks` (lines 78–88): every `callback_data` that is a
string, in reading order; empty when there is no markup or the keyboard
grid is empty. -/
def collectCallbacks (msg : MessageItem) : List String :=
  match msg.reply_markup with
  | none => []
  | some kb =>
    if kb.inline_keyboard = [] then []
    else
      kb.inline_keyboard.foldl
        (fun out row =>
          row.foldl
            (fun out btn =>
              match btn.callback_data with
              | some cd => out ++ [cd]
              | none => out)
            out)
        []

/-- Python `needle in cd`: contiguous-substring containment. -/
def strIn (needle cd : String) : Bool :=
  decide (needle.data <:+: cd.data)

/-- Python `cd.startswith(needle)`. -/
def strStartsWith (cd needle : String) : Bool :=
  needle.data.isPrefixOf cd.data

/-- Python `cd.endswith(needle)`. -/
def strEndsWith (cd needle : String) : Bool :=
  needle.data.isSuffixOf cd.data

/-- Auxiliary for `pyReplace`: fuel-driven left-to-right replacement of
every occurrence of `pat` (non-empty in all uses) by `rep`; the fuel is
the input length, enough because every step consumes at least one
character. -/
def replaceAllAux (pat rep : List Char) : Nat → List Char → List Char
  | 0, s => s
  | _ + 1, [] => []
  | fuel + 1, c :: rest =>
    if pat ≠ [] && pat.isPrefixOf (c :: rest) then
      rep ++ replaceAllAux pat rep fuel ((c :: rest).drop pat.length)
    else
      c :: replaceAllAux pat rep fuel rest

/-- Python `s.replace(pat, rep)` for a non-empty pattern. -/
def pyReplace (s pat rep : String) : String :=
  ⟨replaceAllAux pat.data rep.data s.data.length s.data⟩

/-- The inner closure `any_match` of `require_callbacks` (lines 115–127):
is some normalized token matched by `needle` under `matchMode`?
`regexSearch` is the oracle for `re.compile(needle).search(cd)`. -/
def anyMatch (regexSearch : String → String → Bool) (matchMode : MatchMode)
    (callbacksNorm : List String) (needle : String) : Bool :=
  match matchMode with
  | .exact => callbacksNorm.any (fun cd => cd == needle)
  | .substring => callbacksNorm.any (fun cd => strIn needle cd)
  | .pfx => callbacksNorm.any (fun cd => strStartsWith cd needle)
  | .sfx => callbacksNorm.any (fun cd => strEndsWith cd needle)
  | .regex => callbacksNorm.any (fun cd => regexSearch needle cd)

/-- `require_callbacks` (lines 91–137): pass `None` through; raise
`MissingKeyboard` when the message exposes no tokens; otherwise normalize
case, test every needle with `any_match` and combine with `all`/`any`;
on failure raise `UnsatisfiedCallbackContract`. -/
def requireCallbacks (regexSearch : String → String → Bool)
    (msg : Option MessageItem) (needles : List String)
    (mode : Combinator) (matchMode : MatchMode) (caseSensitive : Bool) :
    Except VErr (Option MessageItem) :=
  match msg with
  | none => .ok none
  | some m =>
    let callbacks := collectCallbacks m
    if callbacks = [] then
      .error (.missingKeyboard needles)
    else
      let callbacksNorm := callbacks.map (pyNormalize caseSensitive)
      let needlesNorm := needles.map (pyNormalize caseSensitive)
      let ok :=
        match mode with
        | .all => needlesNorm.all (anyMatch regexSearch matchMode callbacksNorm)
        | .any => needlesNorm.any (anyMatch regexSearch matchMode callbacksNorm)
      if ok then .ok (some m)
      else .error (.unsatisfiedContract callbacks needles)

/-- `extract` (lines 140–148): the set of callback tokens of an optional
message, as the list of truthy `callback_data` values (membership in this
list models membership in the Python `set`). -/
def extract (item : Option MessageItem) : List String :=
  match item with
  | none => []
  | some m =>
    match m.reply_markup with
    | none => []
    | some kb =>
      kb.inline_keyboard.foldl
        (fun cbs row =>
          row.foldl
            (fun cbs btn =>
              match btn.callback_data with
              | some cd => if cd == "" then cbs else cbs ++ [cd]
              | none => cbs)
            cbs)
        []

/-! ## Payload dictionaries

Python `dict` payloads as association lists with unique keys. -/

/-- `k in obj`. -/
def hasKey (obj : List (String × Val)) (k : String) : Bool :=
  obj.any (fun p => p.1 == k)

/-- `obj.get(k)` / `obj[k]`. -/
def lookupKey (obj : List (String × Val)) (k : String) : Option Val :=
  (obj.find? (fun p => p.1 == k)).map (fun p => p.2)

/-- The removal half of `obj.pop(k)`. -/
def removeKey (obj : List (String × Val)) (k : String) : List (String × Val) :=
  obj.filter (fun p => p.1 != k)

/-- `obj[k] = v`: replace in place when the key exists, append otherwise
(CPython insertion-order semantics). -/
def setKey (obj : List (String × Val)) (k : String) (v : Val) : List (String × Val) :=
  if hasKey obj k then obj.map (fun p => if p.1 == k then (k, v) else p)
  else obj ++ [(k, v)]

/-- Python string comparison: lexicographic by code point. -/
def charListLe : List Char → List Char → Bool
  | [], _ => true
  | _ :: _, [] => false
  | a :: as, b :: bs =>
    if a < b then true
    else if b < a then false
    else charListLe as bs

/-- Python `a <= b` on strings. -/
def strLeB (a b : String) : Bool := charListLe a.data b.data

/-- `sorted(...)` on strings (ascending lexicographic sort). -/
def sortStrings (l : List String) : List String :=
  List.insertionSort (fun a b => strLeB a b = true) l

/-! ## Pydantic core-schema parsing

`Group.model_validate` on a mapping runs (1) the group's own Python-level
key preprocessing, then (2) pydantic's compiled core schema: unknown keys
rejected (`extra="forbid"`), each present field parsed against its
declared type, field validators, then `mode="after"` model validators.
Step (2), and only step (2), is also what runs when the group appears
*nested* inside another model's payload, since a plain `@classmethod
model_validate` override is not part of the compiled schema. -/

/-- Parse an optional `str` field of an object payload. -/
def parseOptStr (obj : List (String × Val)) (k : String) : Except VErr (Option String) :=
  match lookupKey obj k with
  | none => .ok none
  | some .vnull => .ok none
  | some (.vstr s) => .ok (some s)
  | some _ => .error (.typeError k)

/-- Parse a required `str` field of an object payload. -/
def parseReqStr (obj : List (String × Val)) (k : String) : Except VErr String :=
  match lookupKey obj k with
  | some (.vstr s) => .ok s
  | _ => .error (.typeError k)

/-- `extra="forbid"`: every key of the payload must be a declared field. -/
def checkExtraForbid (obj : List (String × Val)) (fields : List String) :
    Except VErr Unit :=
  match obj.find? (fun p => !(fields.contains p.1)) with
  | some p => .error (.extraField p.1)
  | none => .ok ()

/-- Parse one `InlineKeyboardButton` from a payload value (field bounds
and `_only_one_action`, lines 14–31). -/
def parseButton (v : Val) : Except VErr InlineKeyboardButton :=
  match v with
  | .vobj obj => do
    let _ ← checkExtraForbid obj ["text", "callback_data", "url", "title"]
    let text ← parseReqStr obj "text"
    let cd ← parseOptStr obj "callback_data"
    let url ← parseOptStr obj "url"
    let title ← parseOptStr obj "title"
    mkButton text cd url title
  | _ => .error (.typeError "InlineKeyboardButton")

/-- Parse an `InlineKeyboardMarkup` (lines 34–36): `inline_keyboard`
defaults to `[]` and must be a list of lists of buttons. -/
def parseMarkup (v : Val) : Except VErr InlineKeyboardMarkup :=
  match v with
  | .vobj obj => do
    let _ ← checkExtraForbid obj ["inline_keyboard"]
    match lookupKey obj "inline_keyboard" with
    | none => .ok { inline_keyboard := [] }
    | some (.varr rows) => do
      let grid ← rows.mapM (fun row =>
        match row with
        | .varr btns => btns.mapM parseButton
        | _ => .error (.typeError "inline_keyboard row"))
      .ok { inline_keyboard := grid }
    | some _ => .error (.typeError "inline_keyboard")
  | _ => .error (.typeError "InlineKeyboardMarkup")

/-- Parse an optional sub-model field with the given parser. -/
def parseOptWith {α : Type} (p : Val → Except VErr α)
    (obj : List (String × Val)) (k : String) : Except VErr (Option α) :=
  match lookupKey obj k with
  | none => .ok none
  | some .vnull => .ok none
  | some v => (p v).map some

/-- Parse an `AdditionalMessageMarkup` (lines 39–42). -/
def parseAdditional (v : Val) : Except VErr AdditionalMessageMarkup :=
  match v with
  | .vobj obj => do
    let _ ← checkExtraForbid obj ["text", "reply_markup"]
    let text ← parseOptStr obj "text"
    let rm ← parseOptWith parseMarkup obj "reply_markup"
    .ok { text := text, reply_markup := rm }
  | _ => .error (.typeError "AdditionalMessageMarkup")

/-- Parse a `MessageItem` (lines 48–59). Note: the core schema of
`MessageItem` does **not** accept a bare string — `_coerce` is a plain
class method only invoked by the groups' `model_validate` overrides. -/
def parseMessageItem (v : Val) : Except VErr MessageItem :=
  match v with
  | .vobj obj => do
    let _ ← checkExtraForbid obj ["text", "additional_message", "reply_markup"]
    let text ← parseOptStr obj "text"
    let am ← parseOptWith parseAdditional obj "additional_message"
    let rm ← parseOptWith parseMarkup obj "reply_markup"
    .ok { text := text, additional_message := am, reply_markup := rm }
  | _ => .error (.typeError "MessageItem")

/-- Parse an `Optional[MessageItem]` field of a group payload. -/
def getMsgField (obj : List (String × Val)) (k : String) :
    Except VErr (Option MessageItem) :=
  parseOptWith parseMessageItem obj k

/-- Like `getMsgField` for a field with a non-`None` class default (used
by `empty_combo`, line 334): an absent key takes the default, an explicit
null yields `None`. -/
def getMsgFieldD (obj : List (String × Val)) (k : String)
    (dflt : Option MessageItem) : Except VErr (Option MessageItem) :=
  match lookupKey obj k with
  | none => .ok dflt
  | some .vnull => .ok none
  | some v => (parseMessageItem v).map some

/-! ## Message-group models (lines 154–558) -/

/-- The rule tables of all message groups use EXACT matching, so their
`require_callbacks` calls never consult the regex oracle; this is the
arbitrary oracle passed for them. -/
def noRegex : String → String → Bool := fun _ _ => false

/-- `sorted(need - got)` as computed by the group-level
`_require_callbacks` validators. -/
def missingOf (need : List String) (item : Option MessageItem) : List String :=
  sortStrings (need.filter (fun n => !((extract item).contains n)))

/-- The guarded per-field check shared by the group-level
`_require_callbacks` validators of Validation/Menu/Bets/Combos/
Confirmation: fields that are `None` are skipped (`if item is None:
continue`). -/
def checkFieldCallbacks (fieldName : String) (need : List String)
    (item : Option MessageItem) : Except VErr Unit :=
  match item with
  | none => .ok ()
  | some _ =>
    let missing := missingOf need item
    if missing ≠ [] then .error (.missingCallbacks fieldName missing) else .ok ()

/-- `OnboardingMessages` (lines 154–178). -/
structure OnboardingMessages where
  member_onboarding : Option MessageItem := none
  greeting_message : Option MessageItem := none
  deriving DecidableEq, Repr

def OnboardingMessages.fieldNames : List String :=
  ["member_onboarding", "greeting_message"]

/-- `OnboardingMessages._require_callbacks` (lines 170–178). Unlike every
other group's `mode="after"` validator, this one has **no** `None` guard:
`extract(None)` is the empty set, so an absent `member_onboarding` leaves
both needles missing. -/
def OnboardingMessages.afterValidator (g : OnboardingMessages) :
    Except VErr OnboardingMessages :=
  let missing := missingOf ["account_yes", "account_no"] g.member_onboarding
  if missing ≠ [] then .error (.missingCallbacks "member_onboarding" missing)
  else .ok g

/-- The compiled core schema of `OnboardingMessages`: extra-forbid, field
parse, the `member_onboarding` field validator (line 165–168), then the
`mode="after"` model validator. This is the validation that runs when the
group is nested inside another model. -/
def OnboardingMessages.coreValidate (obj : List (String × Val)) :
    Except VErr OnboardingMessages := do
  let _ ← checkExtraForbid obj OnboardingMessages.fieldNames
  let mo ← getMsgField obj "member_onboarding"
  let mo ← requireCallbacks noRegex mo ["account_yes", "account_no"] .all .exact true
  let gm ← getMsgField obj "greeting_message"
  OnboardingMessages.afterValidator { member_onboarding := mo, greeting_message := gm }

/-- `OnboardingMessages.model_validate` (lines 159–163): coerce every
value, then run the core schema. -/
def OnboardingMessages.modelValidate (obj : List (String × Val)) :
    Except VErr OnboardingMessages :=
  OnboardingMessages.coreValidate (coerceObj obj)

/-- `ValidationMessages` (lines 181–227). -/
structure ValidationMessages where
  member_validation : Option MessageItem := none
  member_validation_phone : Option MessageItem := none
  member_validation_email : Option MessageItem := none
  send_otp : Option MessageItem := none
  bad_otp : Option MessageItem := none
  error_otp : Option MessageItem := none
  blocked_otp : Option MessageItem := none
  blocked_user : Option MessageItem := none
  deriving DecidableEq, Repr

def ValidationMessages.fieldNames : List String :=
  ["member_validation", "member_validation_phone", "member_validation_email",
   "send_otp", "bad_otp", "error_otp", "blocked_otp", "blocked_user"]

/-- `ValidationMessages._require_callbacks` (lines 213–227): the three
OTP fields are checked with a `None` guard. -/
def ValidationMessages.afterValidator (g : ValidationMessages) :
    Except VErr ValidationMessages := do
  let _ ← checkFieldCallbacks "send_otp" ["send_otp"] g.send_otp
  let _ ← checkFieldCallbacks "bad_otp" ["send_otp"] g.bad_otp
  let _ ← checkFieldCallbacks "error_otp" ["send_otp"] g.error_otp
  .ok g

def ValidationMessages.coreValidate (obj : List (String × Val)) :
    Except VErr ValidationMessages := do
  let _ ← checkExtraForbid obj ValidationMessages.fieldNames
  let mv ← getMsgField obj "member_validation"
  let mvp ← getMsgField obj "member_validation_phone"
  let mve ← getMsgField obj "member_validation_email"
  let so ← getMsgField obj "send_otp"
  let so ← requireCallbacks noRegex so ["send_otp"] .all .exact true
  let bo ← getMsgField obj "bad_otp"
  let bo ← requireCallbacks noRegex bo ["send_otp"] .all .exact true
  let eo ← getMsgField obj "error_otp"
  let eo ← requireCallbacks noRegex eo ["send_otp"] .all .exact true
  let blo ← getMsgField obj "blocked_otp"
  let blu ← getMsgField obj "blocked_user"
  ValidationMessages.afterValidator
    { member_validation := mv, member_validation_phone := mvp,
      member_validation_email := mve, send_otp := so, bad_otp := bo,
      error_otp := eo, blocked_otp := blo, blocked_user := blu }

def ValidationMessages.modelValidate (obj : List (String × Val)) :
    Except VErr ValidationMessages :=
  ValidationMessages.coreValidate (coerceObj obj)

/-- `RegistrationMessages` (lines 230–239): coercion only, no contracts. -/
structure RegistrationMessages where
  not_registered_user : Option MessageItem := none
  not_registered_user_country : Option MessageItem := none
  deriving DecidableEq, Repr

def RegistrationMessages.coreValidate (obj : List (String × Val)) :
    Except VErr RegistrationMessages := do
  let _ ← checkExtraForbid obj ["not_registered_user", "not_registered_user_country"]
  let nu ← getMsgField obj "not_registered_user"
  let nuc ← getMsgField obj "not_registered_user_country"
  .ok { not_registered_user := nu, not_registered_user_country := nuc }

def RegistrationMessages.modelValidate (obj : List (String × Val)) :
    Except VErr RegistrationMessages :=
  RegistrationMessages.coreValidate (coerceObj obj)

/-- `MenuMessages` (lines 242–281). -/
structure MenuMessages where
  main_menu : Option MessageItem := none
  support : Option MessageItem := none
  withdrawal : Option MessageItem := none
  balance : Option MessageItem := none
  results : Option MessageItem := none
  deposit : Option MessageItem := none
  show_links : Option MessageItem := none
  deriving DecidableEq, Repr

def MenuMessages.fieldNames : List String :=
  ["main_menu", "support", "withdrawal", "balance", "results", "deposit", "show_links"]

/-- The soft legacy aliases of `MenuMessages.model_validate` (lines
259–268): each legacy key is renamed to its canonical form only when the
canonical key is absent; `pop` removes the legacy key, assignment appends
the canonical key. When the canonical key is already present the legacy
key is left in place. -/
def applyMenuAliases (obj : List (String × Val)) : List (String × Val) :=
  [("support_message", "support"), ("withdrawal_message", "withdrawal"),
   ("deposit_message", "deposit"), ("show_links_message", "show_links")].foldl
    (fun obj al =>
      if hasKey obj al.1 && !(hasKey obj al.2) then
        match lookupKey obj al.1 with
        | some v => setKey (removeKey obj al.1) al.2 v
        | none => obj
      else obj)
    obj

/-- `MenuMessages._require_callbacks` (lines 272–281), guarded on
`main_menu is None`. -/
def MenuMessages.afterValidator (g : MenuMessages) : Except VErr MenuMessages := do
  let _ ← checkFieldCallbacks "main_menu" ["bet"] g.main_menu
  .ok g

def MenuMessages.coreValidate (obj : List (String × Val)) :
    Except VErr MenuMessages := do
  let _ ← checkExtraForbid obj MenuMessages.fieldNames
  let mm ← getMsgField obj "main_menu"
  let mm ← requireCallbacks noRegex mm ["bet"] .all .exact true
  let su ← getMsgField obj "support"
  let wd ← getMsgField obj "withdrawal"
  let ba ← getMsgField obj "balance"
  let re ← getMsgField obj "results"
  let de ← getMsgField obj "deposit"
  let sl ← getMsgField obj "show_links"
  MenuMessages.afterValidator
    { main_menu := mm, support := su, withdrawal := wd, balance := ba,
      results := re, deposit := de, show_links := sl }

/-- `MenuMessages.model_validate` (lines 257–270): aliases, coercion,
then the core schema. -/
def MenuMessages.modelValidate (obj : List (String × Val)) :
    Except VErr MenuMessages :=
  MenuMessages.coreValidate (coerceObj (applyMenuAliases obj))

/-- `BetsMessages` (lines 284–325). -/
structure BetsMessages where
  special_bet : Option MessageItem := none
  select_sport : Option MessageItem := none
  select_tournament : Option MessageItem := none
  select_fixture : Option MessageItem := none
  bet_amount : Option MessageItem := none
  invalid_bet_amount : Option MessageItem := none
  fixture_odds : Option MessageItem := none
  special_bets_odds : Option MessageItem := none
  unavailable_odds : Option MessageItem := none
  placed_bet : Option MessageItem := none
  placed_bet_menu : Option MessageItem := none
  without_funds : Option MessageItem := none
  deposit : Option MessageItem := none
  bet_rejected : Option MessageItem := none
  select_type_of_bet : Option MessageItem := none
  closed_fixture : Option MessageItem := none
  deriving DecidableEq, Repr

def BetsMessages.fieldNames : List String :=
  ["special_bet", "select_sport", "select_tournament", "select_fixture",
   "bet_amount", "invalid_bet_amount", "fixture_odds", "special_bets_odds",
   "unavailable_odds", "placed_bet", "placed_bet_menu", "without_funds",
   "deposit", "bet_rejected", "select_type_of_bet", "closed_fixture"]

def betsNeedles : List String :=
  ["bet_simple&{FIXTURE_ID}", "add_market_to_combo&{FIXTURE_ID}"]

/-- `BetsMessages._require_callbacks` (lines 316–325), guarded on
`select_type_of_bet is None`. -/
def BetsMessages.afterValidator (g : BetsMessages) : Except VErr BetsMessages := do
  let _ ← checkFieldCallbacks "select_type_of_bet" betsNeedles g.select_type_of_bet
  .ok g

def BetsMessages.coreValidate (obj : List (String × Val)) :
    Except VErr BetsMessages := do
  let _ ← checkExtraForbid obj BetsMessages.fieldNames
  let f1 ← getMsgField obj "special_bet"
  let f2 ← getMsgField obj "select_sport"
  let f3 ← getMsgField obj "select_tournament"
  let f4 ← getMsgField obj "select_fixture"
  let f5 ← getMsgField obj "bet_amount"
  let f6 ← getMsgField obj "invalid_bet_amount"
  let f7 ← getMsgField obj "fixture_odds"
  let f8 ← getMsgField obj "special_bets_odds"
  let f9 ← getMsgField obj "unavailable_odds"
  let f10 ← getMsgField obj "placed_bet"
  let f11 ← getMsgField obj "placed_bet_menu"
  let f12 ← getMsgField obj "without_funds"
  let f13 ← getMsgField obj "deposit"
  let f14 ← getMsgField obj "bet_rejected"
  let f15 ← getMsgField obj "select_type_of_bet"
  let f15 ← requireCallbacks noRegex f15 betsNeedles .all .exact true
  let f16 ← getMsgField obj "closed_fixture"
  BetsMessages.afterValidator
    { special_bet := f1, select_sport := f2, select_tournament := f3,
      select_fixture := f4, bet_amount := f5, invalid_bet_amount := f6,
      fixture_odds := f7, special_bets_odds := f8, unavailable_odds := f9,
      placed_bet := f10, placed_bet_menu := f11, without_funds := f12,
      deposit := f13, bet_rejected := f14, select_type_of_bet := f15,
      closed_fixture := f16 }

def BetsMessages.modelValidate (obj : List (String × Val)) :
    Except VErr BetsMessages :=
  BetsMessages.coreValidate (coerceObj obj)

/-- The class default of `empty_combo` (lines 334–336); the apostrophe in
the source text is spelled via its code point. -/
def emptyComboDefault : MessageItem :=
  { text := some ("Sorry, there isn" ++ String.singleton (Char.ofNat 39) ++ "t any combo yet") }

/-- `CombosMessages` (lines 328–418). -/
structure CombosMessages where
  show_all_markets_by_fixtures : Option MessageItem := none
  error_to_add_market : Option MessageItem := none
  error_to_get_odds : Option MessageItem := none
  error_to_place_bet : Option MessageItem := none
  empty_combo : Option MessageItem := some emptyComboDefault
  summary_after_add_market : Option MessageItem := none
  summary_after_remove_bet_from_combo : Option MessageItem := none
  remove_market : Option MessageItem := none
  select_amount : Option MessageItem := none
  place_combo_bet : Option MessageItem := none
  summary_after_bet : Option MessageItem := none
  show_my_combo : Option MessageItem := none
  delete_combo : Option MessageItem := none
  combo_odds : Option MessageItem := none
  combos_recommendation : Option MessageItem := none
  combos_confirm_add_recommended : Option MessageItem := none
  delete_bet_from_combo : Option MessageItem := none
  replace_bet_from_combo : Option MessageItem := none
  deriving DecidableEq, Repr

def CombosMessages.fieldNames : List String :=
  ["show_all_markets_by_fixtures", "error_to_add_market", "error_to_get_odds",
   "error_to_place_bet", "empty_combo", "summary_after_add_market",
   "summary_after_remove_bet_from_combo", "remove_market", "select_amount",
   "place_combo_bet", "summary_after_bet", "show_my_combo", "delete_combo",
   "combo_odds", "combos_recommendation", "combos_confirm_add_recommended",
   "delete_bet_from_combo", "replace_bet_from_combo"]

/-- The typo-fix prologue of `CombosMessages.model_validate` (lines
369–374): `errro_to_place_bet` is renamed only when the corrected key is
absent; every key starting with `sumary_` is then renamed with
`k.replace("sumary_", "summary_")` and `obj[corrected] = obj.pop(k)` —
**without** checking whether the corrected key already exists, so an
existing corrected key's value is overwritten. The key snapshot
(`list(obj.keys())`) is taken after the `errro` fix. -/
def fixCombosTypos (obj : List (String × Val)) : List (String × Val) :=
  let obj :=
    if hasKey obj "errro_to_place_bet" && !(hasKey obj "error_to_place_bet") then
      match lookupKey obj "errro_to_place_bet" with
      | some v => setKey (removeKey obj "errro_to_place_bet") "error_to_place_bet" v
      | none => obj
    else obj
  (obj.map Prod.fst).foldl
    (fun obj k =>
      if strStartsWith k "sumary_" && !(strStartsWith k "summary_") then
        match lookupKey obj k with
        | some v => setKey (removeKey obj k) (pyReplace k "sumary_" "summary_") v
        | none => obj
      else obj)
    obj

/-- The default payload injected for `combos_recommendation`
(lines 380–392). -/
def combosRecommendationDefault : Val :=
  .vobj [("text", .vstr "Recommended combos"),
         ("reply_markup", .vobj
           [("inline_keyboard", .varr
             [.varr [.vobj [("text", .vstr "Select Amount"),
                            ("callback_data", .vstr "combo_select_amount_recommended")]]])])]

/-- The default payload injected for `combos_confirm_add_recommended`
(lines 397–399). -/
def combosConfirmDefault : Val :=
  .vobj [("text", .vstr "Do you want to add these recommended combos?")]

/-- The default-injection step of `CombosMessages.model_validate` (lines
375–399): each of the two fields gets its canned default when the key is
absent or explicitly null. -/
def injectCombosDefaults (obj : List (String × Val)) : List (String × Val) :=
  let obj :=
    match lookupKey obj "combos_recommendation" with
    | none => setKey obj "combos_recommendation" combosRecommendationDefault
    | some .vnull => setKey obj "combos_recommendation" combosRecommendationDefault
    | some _ => obj
  match lookupKey obj "combos_confirm_add_recommended" with
  | none => setKey obj "combos_confirm_add_recommended" combosConfirmDefault
  | some .vnull => setKey obj "combos_confirm_add_recommended" combosConfirmDefault
  | some _ => obj

/-- `CombosMessages._require_callbacks` (lines 403–418), all three checks
guarded on `item is None`. -/
def CombosMessages.afterValidator (g : CombosMessages) :
    Except VErr CombosMessages := do
  let _ ← checkFieldCallbacks "combos_recommendation"
    ["combo_select_amount_recommended"] g.combos_recommendation
  let _ ← checkFieldCallbacks "delete_combo"
    ["combo_confirm_delete_combo"] g.delete_combo
  let _ ← checkFieldCallbacks "place_combo_bet"
    ["combo_summary_after_bet"] g.place_combo_bet
  .ok g

def CombosMessages.coreValidate (obj : List (String × Val)) :
    Except VErr CombosMessages := do
  let _ ← checkExtraForbid obj CombosMessages.fieldNames
  let f1 ← getMsgField obj "show_all_markets_by_fixtures"
  let f2 ← getMsgField obj "error_to_add_market"
  let f3 ← getMsgField obj "error_to_get_odds"
  let f4 ← getMsgField obj "error_to_place_bet"
  let f5 ← getMsgFieldD obj "empty_combo" (some emptyComboDefault)
  let f6 ← getMsgField obj "summary_after_add_market"
  let f7 ← getMsgField obj "summary_after_remove_bet_from_combo"
  let f8 ← getMsgField obj "remove_market"
  let f9 ← getMsgField obj "select_amount"
  let f10 ← getMsgField obj "place_combo_bet"
  let f10 ← requireCallbacks noRegex f10 ["combo_summary_after_bet"] .all .exact true
  let f11 ← getMsgField obj "summary_after_bet"
  let f12 ← getMsgField obj "show_my_combo"
  let f13 ← getMsgField obj "delete_combo"
  let f13 ← requireCallbacks noRegex f13 ["combo_confirm_delete_combo"] .all .exact true
  let f14 ← getMsgField obj "combo_odds"
  let f15 ← getMsgField obj "combos_recommendation"
  let f15 ← requireCallbacks noRegex f15 ["combo_select_amount_recommended"] .all .exact true
  let f16 ← getMsgField obj "combos_confirm_add_recommended"
  let f17 ← getMsgField obj "delete_bet_from_combo"
  let f18 ← getMsgField obj "replace_bet_from_combo"
  CombosMessages.afterValidator
    { show_all_markets_by_fixtures := f1, error_to_add_market := f2,
      error_to_get_odds := f3, error_to_place_bet := f4, empty_combo := f5,
      summary_after_add_market := f6, summary_after_remove_bet_from_combo := f7,
      remove_market := f8, select_amount := f9, place_combo_bet := f10,
      summary_after_bet := f11, show_my_combo := f12, delete_combo := f13,
      combo_odds := f14, combos_recommendation := f15,
      combos_confirm_add_recommended := f16, delete_bet_from_combo := f17,
      replace_bet_from_combo := f18 }

/-- `CombosMessages.model_validate` (lines 366–401): typo fixes, default
injection, coercion, then the core schema. -/
def CombosMessages.modelValidate (obj : List (String × Val)) :
    Except VErr CombosMessages :=
  CombosMessages.coreValidate (coerceObj (injectCombosDefaults (fixCombosTypos obj)))

/-- `DEFAULT_GENERAL_ERRORS` (lines 421–458); the strings are copied
byte-for-byte from the source file. -/
def DEFAULT_GENERAL_ERRORS : List (String × List String) :=
  [("es",
    ["Â¡Uff! Me mandaste una pelota curva y no la pude atrapar ðŸ¥Ž Â¿Me puedes repetir lo que quieres hacer?",
     "Â¡Ay! Me hiciste un jaque mate y quedÃ© confundido â™Ÿï¸ Â¿Me puedes repetir lo que quieres hacer?",
     "Â¡Oops! FallÃ© el penalty y se me fue la pelota âš½ Â¿Me puedes repetir lo que quieres hacer?",
     "Â¡Ups! Me sacaste una tarjeta roja por no entender ðŸ”´ Â¿Me puedes repetir lo que quieres hacer?",
     "Â¡Auch! Me noqueaste con esa pregunta ðŸ¥Š Â¿Me puedes repetir lo que quieres hacer?",
     "Â¡Rayos! Hice strike pero en los bolos equivocados ðŸŽ³ Â¿Me puedes repetir lo que quieres hacer?",
     "Â¡Ouch! MetÃ­ la pelota en mi propia canasta ðŸ€ Â¿Me puedes repetir lo que quieres hacer?",
     "Â¡Gol en contra! âš½ Â¿Me puedes repetir lo que quieres hacer?",
     "Â¡Fuera de juego! ðŸš© Â¿Me puedes repetir lo que quieres hacer?",
     "Â¡Pelotazo! âš¾ Â¿Me puedes repetir lo que quieres hacer?"]),
   ("en",
    ["Oops! You threw me a curveball and I struck out âš¾ Can you repeat what you want to do?",
     "Whoops! I fumbled the ball on that one ðŸˆ Can you repeat what you want to do?",
     "Uh oh! You served an ace and I completely whiffed ðŸŽ¾ Can you repeat what you want to do?",
     "Ouch! I got tackled by that question ðŸ‰ Can you repeat what you want to do?",
     "Yikes! I missed the goal completely âš½ Can you repeat what you want to do?",
     "Bummer! I struck out swinging on that one âš¾ Can you repeat what you want to do?",
     "Darn! I went offside and got confused ðŸ’ Can you repeat what you want to do?",
     "Total whiff! âš¾ Can you repeat what you want to do?",
     "Fumbled it! ðŸˆ Can you repeat what you want to do?",
     "Air ball! ðŸ€ Can you repeat what you want to do?"]),
   ("pt-br",
    ["Eita! VocÃª me deu um drible desconcertante e eu fiquei no chÃ£o âš½ Pode repetir o que vocÃª quer fazer?",
     "Opa! VocÃª me aplicou um nocaute tÃ©cnico ðŸ¥Š Pode repetir o que vocÃª quer fazer?",
     "Caramba! Fiz um gol contra sem querer âš½ Pode repetir o que vocÃª quer fazer?",
     "Poxa! VocÃª me deu um ace na cabeÃ§a ðŸŽ¾ Pode repetir o que vocÃª quer fazer?",
     "Ai! Levei uma cesta na cara e fiquei tonto ðŸ€ Pode repetir o que vocÃª quer fazer?",
     "Ixe! Errei o alvo completamente ðŸŽ¯ Pode repetir o que vocÃª quer fazer?",
     "Nossa! Fiz strike nos pinos errados ðŸŽ³ Pode repetir o que vocÃª quer fazer?",
     "Gol contra! âš½ Pode repetir o que vocÃª quer fazer?",
     "Falta! ðŸŸ¨ Pode repetir o que vocÃª quer fazer?",
     "Fora! ðŸŽ¾ Pode repetir o que vocÃª quer fazer?"])]

/-- `ErrorMessages` (lines 461–481). -/
structure ErrorMessages where
  invalid_input : Option MessageItem := none
  error : Option MessageItem := none
  error_2 : Option MessageItem := none
  error_unavailable_bot : Option MessageItem := none
  general_errors : List (String × List String) := DEFAULT_GENERAL_ERRORS
  deriving DecidableEq, Repr

def ErrorMessages.fieldNames : List String :=
  ["invalid_input", "error", "error_2", "error_unavailable_bot", "general_errors"]

/-- Parse the `Dict[str, List[str]]` locale table. -/
def parseLocaleTable (v : Val) : Except VErr (List (String × List String)) :=
  match v with
  | .vobj entries =>
    entries.mapM (fun p =>
      match p.2 with
      | .varr xs => do
        let strs ← xs.mapM (fun x =>
          match x with
          | .vstr s => Except.ok s
          | _ => Except.error (VErr.typeError "general_errors entry"))
        .ok (p.1, strs)
      | _ => .error (.typeError "general_errors value"))
  | _ => .error (.typeError "general_errors")

/-- The core schema of `ErrorMessages`. Unlike the other groups, its
coercion hook `_coerce_message_items` (lines 471–481) is a real
`mode="before"` model validator, so it is part of the compiled schema and
also runs when the group is nested: pop `general_errors`, coerce the
remaining values, and re-insert `general_errors` when it was not null. -/
def ErrorMessages.coreValidate (obj : List (String × Val)) :
    Except VErr ErrorMessages := do
  let ge := lookupKey obj "general_errors"
  let obj := coerceObj (removeKey obj "general_errors")
  let obj :=
    match ge with
    | none => obj
    | some .vnull => obj
    | some v => setKey obj "general_errors" v
  let _ ← checkExtraForbid obj ErrorMessages.fieldNames
  let f1 ← getMsgField obj "invalid_input"
  let f2 ← getMsgField obj "error"
  let f3 ← getMsgField obj "error_2"
  let f4 ← getMsgField obj "error_unavailable_bot"
  let ge ←
    match lookupKey obj "general_errors" with
    | none => Except.ok DEFAULT_GENERAL_ERRORS
    | some v => parseLocaleTable v
  .ok { invalid_input := f1, error := f2, error_2 := f3,
        error_unavailable_bot := f4, general_errors := ge }

/-- `ErrorMessages` has no `model_validate` override: validating it
directly is the same as its core schema. -/
def ErrorMessages.modelValidate (obj : List (String × Val)) :
    Except VErr ErrorMessages :=
  ErrorMessages.coreValidate obj

/-- `ConfirmationMessages` (lines 484–508). -/
structure ConfirmationMessages where
  confirm_bet : Option MessageItem := none
  deriving DecidableEq, Repr

/-- `ConfirmationMessages._require_callbacks` (lines 499–508), guarded on
`confirm_bet is None`. -/
def ConfirmationMessages.afterValidator (g : ConfirmationMessages) :
    Except VErr ConfirmationMessages := do
  let _ ← checkFieldCallbacks "confirm_bet" ["confirm_bet"] g.confirm_bet
  .ok g

def ConfirmationMessages.coreValidate (obj : List (String × Val)) :
    Except VErr ConfirmationMessages := do
  let _ ← checkExtraForbid obj ["confirm_bet"]
  let cb ← getMsgField obj "confirm_bet"
  let cb ← requireCallbacks noRegex cb ["confirm_bet"] .all .exact true
  ConfirmationMessages.afterValidator { confirm_bet := cb }

def ConfirmationMessages.modelValidate (obj : List (String × Val)) :
    Except VErr ConfirmationMessages :=
  ConfirmationMessages.coreValidate (coerceObj obj)

/-- `LabelMessages` (lines 511–534): sixteen unconstrained fields. -/
structure LabelMessages where
  menu_label_text : Option MessageItem := none
  label_text : Option MessageItem := none
  combo_summary_after_add_market_label_text : Option MessageItem := none
  select_tournament_label_text : Option MessageItem := none
  select_fixture_label_text : Option MessageItem := none
  markets_without_combo_label_text : Option MessageItem := none
  select_sport_label_text : Option MessageItem := none
  more_options_text : Option MessageItem := none
  combo_remove_market_label_text : Option MessageItem := none
  selected_other_market_label_text : Option MessageItem := none
  other_markets_label_text : Option MessageItem := none
  combo_odds_label_text : Option MessageItem := none
  fixture_odds_label_text : Option MessageItem := none
  menu_more_options_text : Option MessageItem := none
  list_markets_label_text : Option MessageItem := none
  list_fixtures_label_text : Option MessageItem := none
  deriving DecidableEq, Repr

def LabelMessages.fieldNames : List String :=
  ["menu_label_text", "label_text", "combo_summary_after_add_market_label_text",
   "select_tournament_label_text", "select_fixture_label_text",
   "markets_without_combo_label_text", "select_sport_label_text",
   "more_options_text", "combo_remove_market_label_text",
   "selected_other_market_label_text", "other_markets_label_text",
   "combo_odds_label_text", "fixture_odds_label_text", "menu_more_options_text",
   "list_markets_label_text", "list_fixtures_label_text"]

def LabelMessages.coreValidate (obj : List (String × Val)) :
    Except VErr LabelMessages := do
  let _ ← checkExtraForbid obj LabelMessages.fieldNames
  let f1 ← getMsgField obj "menu_label_text"
  let f2 ← getMsgField obj "label_text"
  let f3 ← getMsgField obj "combo_summary_after_add_market_label_text"
  let f4 ← getMsgField obj "select_tournament_label_text"
  let f5 ← getMsgField obj "select_fixture_label_text"
  let f6 ← getMsgField obj "markets_without_combo_label_text"
  let f7 ← getMsgField obj "select_sport_label_text"
  let f8 ← getMsgField obj "more_options_text"
  let f9 ← getMsgField obj "combo_remove_market_label_text"
  let f10 ← getMsgField obj "selected_other_market_label_text"
  let f11 ← getMsgField obj "other_markets_label_text"
  let f12 ← getMsgField obj "combo_odds_label_text"
  let f13 ← getMsgField obj "fixture_odds_label_text"
  let f14 ← getMsgField obj "menu_more_options_text"
  let f15 ← getMsgField obj "list_markets_label_text"
  let f16 ← getMsgField obj "list_fixtures_label_text"
  .ok { menu_label_text := f1, label_text := f2,
        combo_summary_after_add_market_label_text := f3,
        select_tournament_label_text := f4, select_fixture_label_text := f5,
        markets_without_combo_label_text := f6, select_sport_label_text := f7,
        more_options_text := f8, combo_remove_market_label_text := f9,
        selected_other_market_label_text := f10, other_markets_label_text := f11,
        combo_odds_label_text := f12, fixture_odds_label_text := f13,
        menu_more_options_text := f14, list_markets_label_text := f15,
        list_fixtures_label_text := f16 }

def LabelMessages.modelValidate (obj : List (String × Val)) :
    Except VErr LabelMessages :=
  LabelMessages.coreValidate (coerceObj obj)

/-- `EndMessages` (lines 537–545). -/
structure EndMessages where
  end_conversation : Option MessageItem := none
  deriving DecidableEq, Repr

def EndMessages.coreValidate (obj : List (String × Val)) :
    Except VErr EndMessages := do
  let _ ← checkExtraForbid obj ["end_conversation"]
  let ec ← getMsgField obj "end_conversation"
  .ok { end_conversation := ec }

def EndMessages.modelValidate (obj : List (String × Val)) :
    Except VErr EndMessages :=
  EndMessages.coreValidate (coerceObj obj)

/-- `GuidanceMessages` (lines 548–558). -/
structure GuidanceMessages where
  valid_input_text : Option MessageItem := none
  invalid_input_text : Option MessageItem := none
  invalid_input_response : Option MessageItem := none
  deriving DecidableEq, Repr

def GuidanceMessages.coreValidate (obj : List (String × Val)) :
    Except VErr GuidanceMessages := do
  let _ ← checkExtraForbid obj
    ["valid_input_text", "invalid_input_text", "invalid_input_response"]
  let f1 ← getMsgField obj "valid_input_text"
  let f2 ← getMsgField obj "invalid_input_text"
  let f3 ← getMsgField obj "invalid_input_response"
  .ok { valid_input_text := f1, invalid_input_text := f2,
        invalid_input_response := f3 }

def GuidanceMessages.modelValidate (obj : List (String × Val)) :
    Except VErr GuidanceMessages :=
  GuidanceMessages.coreValidate (coerceObj obj)

/-! ## Links collection (lines 564–701) -/

/-- `LinkItem` (lines 617–650): a validated link. -/
structure LinkItem where
  title : String
  message_text : String
  button_label : String
  button_url : String
  deriving DecidableEq, Repr

/-- Constructing a `LinkItem`: pydantic length bounds, then the three
field validators (title trimmed and non-blank; text fields non-blank;
url trimmed, non-blank, `http://`/`https://` scheme). -/
def mkLinkItem (title message_text button_label button_url : String) :
    Except VErr LinkItem := do
  let _ ← if title.length < 1 || 200 < title.length then
    Except.error (VErr.typeError "title length") else Except.ok ()
  let titleC := title.trim
  let _ ← if titleC = "" then
    Except.error (VErr.typeError "Title cannot be empty or only whitespace")
    else Except.ok ()
  let _ ← if message_text.length < 1 || 5000 < message_text.length then
    Except.error (VErr.typeError "message_text length") else Except.ok ()
  let _ ← if message_text.trim = "" then
    Except.error (VErr.typeError "Field cannot be empty or only whitespace")
    else Except.ok ()
  let _ ← if button_label.length < 1 || 100 < button_label.length then
    Except.error (VErr.typeError "button_label length") else Except.ok ()
  let _ ← if button_label.trim = "" then
    Except.error (VErr.typeError "Field cannot be empty or only whitespace")
    else Except.ok ()
  let _ ← if button_url.length < 1 || 2000 < button_url.length then
    Except.error (VErr.typeError "button_url length") else Except.ok ()
  let urlC := button_url.trim
  let _ ← if urlC = "" then
    Except.error (VErr.typeError "button_url cannot be empty or only whitespace")
    else Except.ok ()
  let _ ← if !(strStartsWith urlC "http://" || strStartsWith urlC "https://") then
    Except.error (VErr.typeError "button_url must start with http or https")
    else Except.ok ()
  .ok { title := titleC, message_text := message_text,
        button_label := button_label, button_url := urlC }

/-- `DEFAULT_LINKS` (lines 564–601), already in validated form. -/
def DEFAULT_LINKS : List LinkItem :=
  [{ title := "Support",
     message_text := "Contact our support team for assistance.",
     button_label := "Get Support", button_url := "https://example.com/support" },
   { title := "Main site",
     message_text := "Visit our main website for more information.",
     button_label := "Go to Main Site", button_url := "https://example.com" },
   { title := "Sign up",
     message_text := "Create an account to get started.",
     button_label := "Sign Up Now", button_url := "https://example.com/signup" },
   { title := "Withdrawal",
     message_text := "Easily withdraw your funds anytime.",
     button_label := "Withdraw Funds", button_url := "https://example.com/withdrawal" },
   { title := "Deposit",
     message_text := "Deposit funds securely into your account.",
     button_label := "Deposit Now", button_url := "https://example.com/deposit" },
   { title := "Bet results",
     message_text := "Check your latest bet results here.",
     button_label := "View Results", button_url := "https://example.com/bet-results" }]

/-- `REQUIRED_LINK_TITLES` (lines 604–611); a Python set, kept here in
source order (every use either tests membership or sorts it). -/
def REQUIRED_LINK_TITLES : List String :=
  ["support", "main site", "sign up", "withdrawal", "deposit", "bet results"]

/-- `LinksMessages` (lines 653–701). -/
structure LinksMessages where
  links : List LinkItem := DEFAULT_LINKS
  deriving DecidableEq, Repr

/-- `LinksMessages._validate_links` (lines 663–674): the 100-cap, then
the case-insensitive duplicate-title check
(`len(titles_lower) != len(set(titles_lower))`). -/
def validateLinksField (v : List LinkItem) : Except VErr (List LinkItem) :=
  if v.length > 100 then .error .tooManyLinks
  else
    let titlesLower := v.map (fun link => pyLower link.title)
    if titlesLower.Nodup then .ok v else .error .duplicateLinkTitle

/-- `LinksMessages._require_default_links` (lines 676–701): the sorted
case-insensitive difference against `REQUIRED_LINK_TITLES` must be
empty. -/
def requireDefaultLinks (g : LinksMessages) : Except VErr LinksMessages :=
  let currentTitlesLower := g.links.map (fun link => pyLower link.title)
  let missingTitles :=
    REQUIRED_LINK_TITLES.filter (fun t => !(currentTitlesLower.contains t))
  if missingTitles ≠ [] then
    .error (.missingRequiredLinks (sortStrings missingTitles)
      (sortStrings REQUIRED_LINK_TITLES))
  else .ok g

/-- Constructing `LinksMessages(links=v)` from an explicit item list: the
field validator, then the `mode="after"` model validator. -/
def LinksMessages.validate (v : List LinkItem) : Except VErr LinksMessages := do
  let l ← validateLinksField v
  requireDefaultLinks { links := l }

/-- The core schema of `LinksMessages` on a payload: when `links` is
absent the default factory injects `DEFAULT_LINKS` without running the
field validator (pydantic does not validate defaults), but the
`mode="after"` model validator still runs. -/
def LinksMessages.coreValidate (v : Val) : Except VErr LinksMessages :=
  match v with
  | .vobj obj => do
    let _ ← checkExtraForbid obj ["links"]
    match lookupKey obj "links" with
    | none => requireDefaultLinks { links := DEFAULT_LINKS }
    | some (.varr xs) => do
      let items ← xs.mapM (fun x =>
        match x with
        | .vobj o => do
          let _ ← checkExtraForbid o
            ["title", "message_text", "button_label", "button_url"]
          let t ← parseReqStr o "title"
          let mt ← parseReqStr o "message_text"
          let bl ← parseReqStr o "button_label"
          let bu ← parseReqStr o "button_url"
          mkLinkItem t mt bl bu
        | _ => .error (.typeError "LinkItem"))
      LinksMessages.validate items
    | some _ => .error (.typeError "links")
  | _ => .error (.typeError "LinksMessages")

/-! ## The template aggregate (lines 707–723)

Only the group fields and the links collection are modelled; the
`created_at`/`updated_at` timestamp fields (environment-supplied
defaults, no validators) and the persisted-variant keys play no role in
any claim, so a payload supplying them is reported as unmodelled. -/

structure MessageTemplates where
  onboarding : Option OnboardingMessages := none
  validation : Option ValidationMessages := none
  registration : Option RegistrationMessages := none
  menu : Option MenuMessages := none
  bets : Option BetsMessages := none
  combos : Option CombosMessages := none
  errors : Option ErrorMessages := none
  confirmation : Option ConfirmationMessages := none
  labels : Option LabelMessages := none
  endGroup : Option EndMessages := none
  guidance : Option GuidanceMessages := none
  links : LinksMessages := {}
  deriving DecidableEq, Repr

def MessageTemplates.fieldNames : List String :=
  ["onboarding", "validation", "registration", "menu", "bets", "combos",
   "errors", "confirmation", "labels", "end", "guidance", "links",
   "created_at", "updated_at"]

/-- Parse an optional nested model via its **core schema** (the key point
for the coercion claims: `MessageTemplates` has no `model_validate`
override, and the groups' plain-classmethod overrides are not part of
their compiled schemas, so a nested group payload is validated without
the coercion/alias/typo preprocessing — except `ErrorMessages`, whose
hook is a genuine `mode="before"` validator). -/
def parseGroup {α : Type} (core : List (String × Val) → Except VErr α)
    (obj : List (String × Val)) (k : String) : Except VErr (Option α) :=
  parseOptWith (fun v =>
    match v with
    | .vobj o => core o
    | _ => .error (.typeError k)) obj k

/-- `MessageTemplates.model_validate` on a payload mapping. -/
def MessageTemplates.modelValidate (obj : List (String × Val)) :
    Except VErr MessageTemplates := do
  let _ ← checkExtraForbid obj MessageTemplates.fieldNames
  let _ ← if hasKey obj "created_at" || hasKey obj "updated_at" then
    Except.error (VErr.typeError "timestamp fields not modelled") else Except.ok ()
  let ob ← parseGroup OnboardingMessages.coreValidate obj "onboarding"
  let va ← parseGroup ValidationMessages.coreValidate obj "validation"
  let rg ← parseGroup RegistrationMessages.coreValidate obj "registration"
  let me ← parseGroup MenuMessages.coreValidate obj "menu"
  let be ← parseGroup BetsMessages.coreValidate obj "bets"
  let co ← parseGroup CombosMessages.coreValidate obj "combos"
  let er ← parseGroup ErrorMessages.coreValidate obj "errors"
  let cf ← parseGroup ConfirmationMessages.coreValidate obj "confirmation"
  let la ← parseGroup LabelMessages.coreValidate obj "labels"
  let en ← parseGroup EndMessages.coreValidate obj "end"
  let gu ← parseGroup GuidanceMessages.coreValidate obj "guidance"
  let li ←
    match lookupKey obj "links" with
    | none => requireDefaultLinks { links := DEFAULT_LINKS }
    | some v => LinksMessages.coreValidate v
  .ok { onboarding := ob, validation := va, registration := rg, menu := me,
        bets := be, combos := co, errors := er, confirmation := cf,
        labels := la, endGroup := en, guidance := gu, links := li }

/-! ## Specification-side helpers used by the theorems -/

/-- The exposed callback tokens of a message in flatten/filterMap form;
proved below to coincide with `collectCallbacks`. -/
def exposedTokens (m : MessageItem) : List String :=
  match m.reply_markup with
  | none => []
  | some kb => kb.inline_keyboard.flatten.filterMap (fun b => b.callback_data)

/-- Classification of a `require_callbacks` run: returned the message,
raised the missing-keyboard error, or raised the unsatisfied-contract
error. -/
inductive Outcome where
  | passed | missingKeyboard | unsatisfied
  deriving DecidableEq, Repr

/-- The outcome class of a `require_callbacks` result (the error payload,
which repeats the concrete token list, is deliberately ignored: the claim
speaks of error *classes*). -/
def outcomeOf : Except VErr (Option MessageItem) → Outcome
  | .ok _ => .passed
  | .error (.missingKeyboard _) => .missingKeyboard
  | .error _ => .unsatisfied

/-- The `MessageItem` that `combos_recommendation` acquires from its
injected default payload. -/
def combosRecommendationItem : MessageItem :=
  { text := some "Recommended combos",
    reply_markup := some { inline_keyboard :=
      [[{ text := "Select Amount",
          callback_data := some "combo_select_amount_recommended" }]] } }

/-- The `MessageItem` that `combos_confirm_add_recommended` acquires from
its injected default payload. -/
def combosConfirmItem : MessageItem :=
  { text := some "Do you want to add these recommended combos?" }

/-- A message whose single-row keyboard exposes exactly the given
callback tokens (used to instantiate the theorems at concrete inputs). -/
def msgTokens (toks : List String) : MessageItem :=
  { reply_markup := some { inline_keyboard :=
      [toks.map (fun t => { text := "B", callback_data := some t })] } }

/-! ## Helper lemmas -/

theorem foldl_collect_row (row : List InlineKeyboardButton) (out : List String) :
    row.foldl
      (fun out btn =>
        match btn.callback_data with
        | some cd => out ++ [cd]
        | none => out)
      out
    = out ++ row.filterMap (fun b => b.callback_data) := by
  induction row generalizing out with
  | nil => simp
  | cons b t ih =>
    cases h : b.callback_data <;>
      simp [List.foldl_cons, h, ih, List.filterMap_cons]

theorem foldl_collect_rows (rows : List (List InlineKeyboardButton))
    (out : List String) :
    rows.foldl
      (fun out row =>
        row.foldl
          (fun out btn =>
            match btn.callback_data with
            | some cd => out ++ [cd]
            | none => out)
          out)
      out
    = out ++ rows.flatten.filterMap (fun b => b.callback_data) := by
  induction rows generalizing out with
  | nil => simp
  | cons r t ih =>
    rw [List.foldl_cons, foldl_collect_row, ih]
    simp [List.flatten_cons, List.filterMap_append, List.append_assoc]

/-- `_collect_callbacks` computes exactly the flattened `callback_data`
sequence of the keyboard. -/
theorem collectCallbacks_eq_exposedTokens (m : MessageItem) :
    collectCallbacks m = exposedTokens m := by
  unfold collectCallbacks exposedTokens
  cases m.reply_markup with
  | none => rfl
  | some kb =>
    by_cases h : kb.inline_keyboard = []
    · simp [h]
    · simp only [h, if_false, foldl_collect_rows, List.nil_append]

theorem pyNormalize_true (s : String) : pyNormalize true s = s := rfl

theorem anyMatch_exact_mem (rs : String → String → Bool) (c : List String)
    (n : String) : anyMatch rs .exact c n = true ↔ n ∈ c := by
  simp [anyMatch, List.any_eq_true, beq_iff_eq]

/-- `require_callbacks` on a message with exposed tokens, unfolded. -/
theorem requireCallbacks_some (rs : String → String → Bool) (m : MessageItem)
    (needles : List String) (mode : Combinator) (mm : MatchMode) (cs : Bool)
    (h : collectCallbacks m ≠ []) :
    requireCallbacks rs (some m) needles mode mm cs
      = (if (match mode with
            | .all => (needles.map (pyNormalize cs)).all
                (anyMatch rs mm ((collectCallbacks m).map (pyNormalize cs)))
            | .any => (needles.map (pyNormalize cs)).any
                (anyMatch rs mm ((collectCallbacks m).map (pyNormalize cs))))
          then .ok (some m)
          else .error (.unsatisfiedContract (collectCallbacks m) needles)) := by
  simp only [requireCallbacks, if_neg h]

theorem map_pyNormalize_true (l : List String) : l.map (pyNormalize true) = l := by
  have h : pyNormalize true = fun s => s := rfl
  rw [h, List.map_id']

theorem all_exact_iff (rs : String → String → Bool) (c needles : List String) :
    needles.all (anyMatch rs .exact c) = true ↔ ∀ n ∈ needles, n ∈ c := by
  simp [List.all_eq_true, anyMatch_exact_mem]

theorem any_exact_iff (rs : String → String → Bool) (c needles : List String) :
    needles.any (anyMatch rs .exact c) = true ↔ ∃ n ∈ needles, n ∈ c := by
  simp [List.any_eq_true, anyMatch_exact_mem]

/-! ## Claim theorems -/

/-- C1: for a message with at least one exposed callback token and a
non-empty needle sequence, `require_callbacks` with combinator ALL and
match mode EXACT passes (returning the message) iff the exposed token set
is a superset of the needle set, and with combinator ANY iff it
intersects the needle set; in the failing case it raises the
unsatisfied-contract error. -/
theorem C1_require_callbacks_exact_all_any (rs : String → String → Bool)
    (m : MessageItem) (needles : List String)
    (h1 : collectCallbacks m ≠ []) (h2 : needles ≠ []) :
    (requireCallbacks rs (some m) needles .all .exact true = .ok (some m)
      ↔ ∀ n ∈ needles, n ∈ collectCallbacks m)
    ∧ (requireCallbacks rs (some m) needles .any .exact true = .ok (some m)
      ↔ ∃ n ∈ needles, n ∈ collectCallbacks m)
    ∧ (¬(∀ n ∈ needles, n ∈ collectCallbacks m) →
        requireCallbacks rs (some m) needles .all .exact true
          = .error (.unsatisfiedContract (collectCallbacks m) needles))
    ∧ (¬(∃ n ∈ needles, n ∈ collectCallbacks m) →
        requireCallbacks rs (some m) needles .any .exact true
          = .error (.unsatisfiedContract (collectCallbacks m) needles)) := by
  have hall := requireCallbacks_some rs m needles .all .exact true h1
  have hany := requireCallbacks_some rs m needles .any .exact true h1
  simp only [map_pyNormalize_true] at hall hany
  refine ⟨?_, ?_, ?_, ?_⟩
  · rw [hall]
    by_cases hok : needles.all (anyMatch rs .exact (collectCallbacks m)) = true
    · simp only [hok, if_true, true_iff]
      exact (all_exact_iff rs (collectCallbacks m) needles).mp hok
    · have hnot : ¬ (∀ n ∈ needles, n ∈ collectCallbacks m) := by
        rw [← all_exact_iff rs]; exact hok
      simp [hok, hnot]
  · rw [hany]
    by_cases hok : needles.any (anyMatch rs .exact (collectCallbacks m)) = true
    · simp only [hok, if_true, true_iff]
      exact (any_exact_iff rs (collectCallbacks m) needles).mp hok
    · have hnot : ¬ (∃ n ∈ needles, n ∈ collectCallbacks m) := by
        rw [← any_exact_iff rs]; exact hok
      simp [hok, hnot]
  · intro hnot
    rw [hall]
    have hok : ¬ needles.all (anyMatch rs .exact (collectCallbacks m)) = true := by
      rw [all_exact_iff rs]; exact hnot
    simp [hok]
  · intro hnot
    rw [hany]
    have hok : ¬ needles.any (anyMatch rs .exact (collectCallbacks m)) = true := by
      rw [any_exact_iff rs]; exact hnot
    simp [hok]

/-- Witness for C1: tokens `{a, b, c}` satisfy needles `{a, b}` under
ALL/EXACT; tokens `{c}` do not and raise the unsatisfied error; tokens
`{b}` satisfy needles `{a, b}` under ANY/EXACT. -/
theorem C1_witness :
    requireCallbacks noRegex (some (msgTokens ["a", "b", "c"])) ["a", "b"]
        .all .exact true = .ok (some (msgTokens ["a", "b", "c"]))
    ∧ requireCallbacks noRegex (some (msgTokens ["c"])) ["a", "b"]
        .all .exact true = .error (.unsatisfiedContract ["c"] ["a", "b"])
    ∧ requireCallbacks noRegex (some (msgTokens ["b"])) ["a", "b"]
        .any .exact true = .ok (some (msgTokens ["b"])) := by
  refine ⟨?_, ?_, ?_⟩
  · exact ((C1_require_callbacks_exact_all_any noRegex (msgTokens ["a", "b", "c"])
      ["a", "b"] (by decide) (by decide)).1).mpr (by decide)
  · have h := (C1_require_callbacks_exact_all_any noRegex (msgTokens ["c"])
      ["a", "b"] (by decide) (by decide)).2.2.1 (by decide)
    exact h
  · exact ((C1_require_callbacks_exact_all_any noRegex (msgTokens ["b"])
      ["a", "b"] (by decide) (by decide)).2.1).mpr (by decide)

/-- C2: for every needle sequence, combinator and match mode,
`require_callbacks` on an absent message returns `None` without raising,
and on a present message exposing zero callback tokens (no markup, empty
keyboard, or buttons without callback tokens) raises the missing-keyboard
error. -/
theorem C2_none_and_missing_keyboard (rs : String → String → Bool)
    (needles : List String) (mode : Combinator) (mm : MatchMode) (cs : Bool) :
    requireCallbacks rs none needles mode mm cs = .ok none
    ∧ (∀ m : MessageItem, collectCallbacks m = [] →
        requireCallbacks rs (some m) needles mode mm cs
          = .error (.missingKeyboard needles))
    ∧ (∀ m : MessageItem, m.reply_markup = none → collectCallbacks m = [])
    ∧ (∀ m : MessageItem, m.reply_markup = some { inline_keyboard := [] } →
        collectCallbacks m = [])
    ∧ (∀ (m : MessageItem) (kb : InlineKeyboardMarkup),
        m.reply_markup = some kb →
        (∀ row ∈ kb.inline_keyboard, ∀ b ∈ row, b.callback_data = none) →
        collectCallbacks m = []) := by
  refine ⟨rfl, ?_, ?_, ?_, ?_⟩
  · intro m h
    simp [requireCallbacks, h]
  · intro m h
    rw [collectCallbacks_eq_exposedTokens]
    simp [exposedTokens, h]
  · intro m h
    rw [collectCallbacks_eq_exposedTokens]
    simp [exposedTokens, h]
  · intro m kb h hnone
    rw [collectCallbacks_eq_exposedTokens]
    simp only [exposedTokens, h]
    rw [List.filterMap_eq_nil_iff]
    intro b hb
    rcases List.mem_flatten.mp hb with ⟨row, hrow, hbrow⟩
    exact hnone row hrow b hbrow

/-- Witness for C2: `require_callbacks(None, [x], ALL, EXACT)` passes
through, and a message without markup raises the missing-keyboard
error. -/
theorem C2_witness :
    requireCallbacks noRegex none ["x"] .all .exact true = .ok none
    ∧ requireCallbacks noRegex (some {}) ["x"] .all .exact true
      = .error (.missingKeyboard ["x"]) := by
  have h := C2_none_and_missing_keyboard noRegex ["x"] .all .exact true
  exact ⟨h.1, h.2.1 {} rfl⟩

/-- C3: against a single exposed token `t`, a needle `n` is satisfied:
under EXACT iff `t = n`; under SUBSTRING iff `n` occurs contiguously
within `t`; under PREFIX iff `t` starts with `n`; under SUFFIX iff `t`
ends with `n`; under REGEX iff the compiled-pattern search oracle matches
`n` anywhere in `t`. In particular needle "bet" under PREFIX matches
token "bet_simple", under EXACT it does not, and needle "impl" under
SUBSTRING matches "bet_simple". -/
theorem C3_match_modes (rs : String → String → Bool) (t n : String) :
    (anyMatch rs .exact [t] n = true ↔ t = n)
    ∧ (anyMatch rs .substring [t] n = true ↔ n.data <:+: t.data)
    ∧ (anyMatch rs .pfx [t] n = true ↔ n.data <+: t.data)
    ∧ (anyMatch rs .sfx [t] n = true ↔ n.data <:+ t.data)
    ∧ (anyMatch rs .regex [t] n = true ↔ rs n t = true)
    ∧ anyMatch rs .pfx ["bet_simple"] "bet" = true
    ∧ anyMatch rs .exact ["bet_simple"] "bet" = false
    ∧ anyMatch rs .substring ["bet_simple"] "impl" = true := by
  refine ⟨?_, ?_, ?_, ?_, ?_, ?_, ?_, ?_⟩
  · simp [anyMatch]
  · simp [anyMatch, strIn]
  · simp [anyMatch, strStartsWith, List.isPrefixOf_iff_prefix]
  · simp [anyMatch, strEndsWith, List.isSuffixOf_iff_suffix]
  · simp [anyMatch]
  · rfl
  · rfl
  · rfl

/-- C4 (amended): validating the empty payload succeeds for the
Validation, Menu, Bets, Combos (with its two defaults injected), Errors,
Confirmation, Labels, End and Guidance groups — but **fails** for the
Onboarding group, whose group-level validator checks `member_onboarding`
without a `None` guard and therefore reports both needles missing. -/
theorem C4_empty_payload_per_group :
    OnboardingMessages.modelValidate []
      = .error (.missingCallbacks "member_onboarding" ["account_no", "account_yes"])
    ∧ ValidationMessages.modelValidate [] = .ok {}
    ∧ MenuMessages.modelValidate [] = .ok {}
    ∧ BetsMessages.modelValidate [] = .ok {}
    ∧ CombosMessages.modelValidate []
      = .ok { empty_combo := some emptyComboDefault,
              combos_recommendation := some combosRecommendationItem,
              combos_confirm_add_recommended := some combosConfirmItem }
    ∧ ErrorMessages.modelValidate [] = .ok {}
    ∧ ConfirmationMessages.modelValidate [] = .ok {}
    ∧ LabelMessages.modelValidate [] = .ok {}
    ∧ EndMessages.modelValidate [] = .ok {}
    ∧ GuidanceMessages.modelValidate [] = .ok {} := by
  refine ⟨rfl, rfl, rfl, rfl, ?_, rfl, rfl, rfl, rfl, rfl⟩
  rfl

/-- C4 counterexample: the claim fails at the Onboarding group — the
empty payload, in which every field is absent, is rejected rather than
accepted. -/
theorem C4_counterexample :
    OnboardingMessages.modelValidate []
      = .error (.missingCallbacks "member_onboarding"
          ["account_no", "account_yes"]) := by
  rfl

/-- C5 (amended): the bare-string-to-`{text: s}` coercion runs when a
group is validated directly through its `model_validate` override, and —
for the Errors group only, whose hook is a genuine `mode="before"`
validator — also when the group payload is nested inside the template
aggregate. For every other group the override is bypassed during nested
validation, so a bare string in a nested group payload is rejected
instead of coerced. -/
theorem C5_coercion_direct_not_nested :
    EndMessages.modelValidate [("end_conversation", Val.vstr "Bye")]
      = .ok { end_conversation := some { text := some "Bye" } }
    ∧ MessageTemplates.modelValidate
        [("end", Val.vobj [("end_conversation", Val.vstr "Bye")])]
      = .error (.typeError "MessageItem")
    ∧ MessageTemplates.modelValidate
        [("errors", Val.vobj [("error", Val.vstr "Oops")])]
      = .ok { errors := some { error := some { text := some "Oops" } } } :=
  ⟨rfl, rfl, rfl⟩

/-- C5 counterexample: nesting the End group payload
`{"end_conversation": "Bye"}` inside the template aggregate's payload is
rejected with a type error instead of being coerced — the claim's
"every nesting level" fails at this concrete input. -/
theorem C5_counterexample :
    MessageTemplates.modelValidate
        [("end", Val.vobj [("end_conversation", Val.vstr "Bye")])]
      = .error (.typeError "MessageItem") :=
  rfl

/-- C6 (amended): a legacy Menu key is renamed to its canonical form only
when the canonical key is absent (so `{"support_message": s}` validates
with `support` text `s`, likewise for the other three aliases); but when
**both** the legacy and the canonical key are present, the legacy key is
left in the payload and validation **fails** with an unknown-key error
(`extra="forbid"`) rather than silently discarding it. -/
theorem C6_menu_legacy_alias (s t : String) :
    MenuMessages.modelValidate [("support_message", Val.vstr s)]
      = .ok { support := some { text := some s } }
    ∧ MenuMessages.modelValidate [("support", Val.vstr s)]
      = .ok { support := some { text := some s } }
    ∧ MenuMessages.modelValidate
        [("support", Val.vstr s), ("support_message", Val.vstr t)]
      = .error (.extraField "support_message")
    ∧ MenuMessages.modelValidate [("withdrawal_message", Val.vstr s)]
      = .ok { withdrawal := some { text := some s } }
    ∧ MenuMessages.modelValidate [("deposit_message", Val.vstr s)]
      = .ok { deposit := some { text := some s } }
    ∧ MenuMessages.modelValidate [("show_links_message", Val.vstr s)]
      = .ok { show_links := some { text := some s } } :=
  ⟨rfl, rfl, rfl, rfl, rfl, rfl⟩

/-- C6 counterexample: with both `"support"` and `"support_message"`
present the claim predicts success with the canonical value winning; the
code instead rejects the payload because the undiscarded legacy key is an
unknown field. -/
theorem C6_counterexample :
    MenuMessages.modelValidate
        [("support", Val.vstr "A"), ("support_message", Val.vstr "B")]
      = .error (.extraField "support_message") :=
  rfl

/-- C7 (amended): in the Combos group, `errro_to_place_bet` is renamed to
`error_to_place_bet` only when the corrected key is absent (when both are
present the payload is rejected for the unknown typo key); but the
`sumary_` → `summary_` re-prefixing is applied **unconditionally**, so
when both the typo key and its corrected form are present, the typo key's
value silently overwrites the corrected key's value. -/
theorem C7_combos_typo_correction :
    CombosMessages.modelValidate [("errro_to_place_bet", Val.vstr "X")]
      = .ok { error_to_place_bet := some { text := some "X" },
              empty_combo := some emptyComboDefault,
              combos_recommendation := some combosRecommendationItem,
              combos_confirm_add_recommended := some combosConfirmItem }
    ∧ CombosMessages.modelValidate
        [("errro_to_place_bet", Val.vstr "X"), ("error_to_place_bet", Val.vstr "Y")]
      = .error (.extraField "errro_to_place_bet")
    ∧ CombosMessages.modelValidate [("sumary_after_add_market", Val.vstr "X")]
      = .ok { summary_after_add_market := some { text := some "X" },
              empty_combo := some emptyComboDefault,
              combos_recommendation := some combosRecommendationItem,
              combos_confirm_add_recommended := some combosConfirmItem }
    ∧ CombosMessages.modelValidate
        [("sumary_after_add_market", Val.vstr "X"),
         ("summary_after_add_market", Val.vstr "Y")]
      = .ok { summary_after_add_market := some { text := some "X" },
              empty_combo := some emptyComboDefault,
              combos_recommendation := some combosRecommendationItem,
              combos_confirm_add_recommended := some combosConfirmItem } :=
  ⟨rfl, rfl, rfl, rfl⟩

/-- C7 counterexample: with both `"sumary_after_add_market": "A"` and
`"summary_after_add_market": "B"` present, validation succeeds with the
field text equal to `"A"` — the typo key's value **replaced** the present
corrected key's value `"B"`, which the claim says never happens. -/
theorem C7_counterexample :
    CombosMessages.modelValidate
        [("sumary_after_add_market", Val.vstr "A"),
         ("summary_after_add_market", Val.vstr "B")]
      = .ok { summary_after_add_market := some { text := some "A" },
              empty_combo := some emptyComboDefault,
              combos_recommendation := some combosRecommendationItem,
              combos_confirm_add_recommended := some combosConfirmItem } :=
  rfl

theorem charListLe_total (a b : List Char) :
    charListLe a b = true ∨ charListLe b a = true := by
  induction a generalizing b with
  | nil => left; rfl
  | cons x xs ih =>
    cases b with
    | nil => right; rfl
    | cons y ys =>
      rcases lt_trichotomy x y with h | h | h
      · left; simp [charListLe, h]
      · subst h
        rcases ih ys with h2 | h2
        · left; simpa [charListLe, lt_irrefl] using h2
        · right; simpa [charListLe, lt_irrefl] using h2
      · right; simp [charListLe, h]

theorem charListLe_trans (a : List Char) : ∀ b c : List Char,
    charListLe a b = true → charListLe b c = true → charListLe a c = true := by
  induction a with
  | nil => intro b c _ _; rfl
  | cons x xs ih =>
    intro b c h1 h2
    cases b with
    | nil => simp [charListLe] at h1
    | cons y ys =>
      cases c with
      | nil => simp [charListLe] at h2
      | cons z zs =>
        rcases lt_trichotomy x y with hxy | hxy | hxy
        · rcases lt_trichotomy y z with hyz | hyz | hyz
          · simp [charListLe, lt_trans hxy hyz]
          · subst hyz; simp [charListLe, hxy]
          · simp [charListLe, lt_asymm hyz, hyz] at h2
        · subst hxy
          simp only [charListLe, lt_irrefl, if_false] at h1
          rcases lt_trichotomy x z with hxz | hxz | hxz
          · simp [charListLe, hxz]
          · subst hxz
            simp only [charListLe, lt_irrefl, if_false] at h2 ⊢
            exact ih ys zs h1 h2
          · simp [charListLe, lt_asymm hxz, hxz] at h2
        · simp [charListLe, lt_asymm hxy, hxy] at h1

theorem sortStrings_perm (l : List String) : List.Perm (sortStrings l) l :=
  List.perm_insertionSort _ l

theorem sortStrings_sorted (l : List String) :
    (sortStrings l).Sorted (fun a b => strLeB a b = true) := by
  haveI : IsTotal String (fun a b => strLeB a b = true) :=
    ⟨fun a b => charListLe_total a.data b.data⟩
  haveI : IsTrans String (fun a b => strLeB a b = true) :=
    ⟨fun a b c => charListLe_trans a.data b.data c.data⟩
  exact List.sorted_insertionSort _ l

/-- C8: for valid link items, at most 100 of them, with pairwise
case-insensitively distinct titles: validation succeeds iff the
case-insensitive title set contains all six required titles; when some
required title is missing it fails with the missing-required-links error
naming exactly the missing titles in ascending (alphabetical) order and
restating the full required set, itself sorted. -/
theorem C8_links_required_titles (v : List LinkItem)
    (h1 : v.length ≤ 100)
    (h2 : (v.map (fun l => pyLower l.title)).Nodup) :
    (LinksMessages.validate v = .ok { links := v }
      ↔ ∀ t ∈ REQUIRED_LINK_TITLES, t ∈ v.map (fun l => pyLower l.title))
    ∧ (REQUIRED_LINK_TITLES.filter
          (fun t => !((v.map (fun l => pyLower l.title)).contains t)) ≠ [] →
        LinksMessages.validate v
          = .error (.missingRequiredLinks
              (sortStrings (REQUIRED_LINK_TITLES.filter
                (fun t => !((v.map (fun l => pyLower l.title)).contains t))))
              (sortStrings REQUIRED_LINK_TITLES)))
    ∧ (∀ l : List String,
        List.Perm (sortStrings l) l
        ∧ (sortStrings l).Sorted (fun a b => strLeB a b = true))
    ∧ sortStrings REQUIRED_LINK_TITLES
      = ["bet results", "deposit", "main site", "sign up", "support",
         "withdrawal"] := by
  have h100 : ¬ (v.length > 100) := by omega
  have hfield : validateLinksField v = .ok v := by
    simp [validateLinksField, h100, h2]
  have hval : LinksMessages.validate v
      = requireDefaultLinks { links := v } := by
    unfold LinksMessages.validate
    rw [hfield]
    rfl
  refine ⟨?_, ?_, fun l => ⟨sortStrings_perm l, sortStrings_sorted l⟩, rfl⟩
  · rw [hval]
    simp only [requireDefaultLinks]
    by_cases hm : REQUIRED_LINK_TITLES.filter
        (fun t => !((v.map (fun l => pyLower l.title)).contains t)) = []
    · rw [if_neg (fun hc => hc hm)]
      constructor
      · intro _ t ht
        have := List.filter_eq_nil_iff.mp hm t ht
        simpa using this
      · intro _; rfl
    · rw [if_pos hm]
      constructor
      · intro hcontra; exact Except.noConfusion hcontra
      · intro hall
        exfalso
        apply hm
        rw [List.filter_eq_nil_iff]
        intro t ht
        simpa using hall t ht
  · intro hm
    rw [hval]
    simp only [requireDefaultLinks]
    rw [if_pos hm]

/-- Witness for C8: the six default links validate; keeping only the
`Support` link fails, naming the five missing titles sorted
alphabetically together with the full required set. -/
theorem C8_witness :
    LinksMessages.validate DEFAULT_LINKS = .ok { links := DEFAULT_LINKS }
    ∧ LinksMessages.validate (DEFAULT_LINKS.take 1)
      = .error (.missingRequiredLinks
          ["bet results", "deposit", "main site", "sign up", "withdrawal"]
          ["bet results", "deposit", "main site", "sign up", "support",
           "withdrawal"]) := by
  constructor
  · exact ((C8_links_required_titles DEFAULT_LINKS (by decide)
      (by decide)).1).mpr (by decide)
  · exact (C8_links_required_titles (DEFAULT_LINKS.take 1) (by decide)
      (by decide)).2.1 (by decide)

/-- C9 (amended): with Python truthiness — `None` and `""` both counting
as unset — every successfully constructed button has exactly one of
{callback token, url} *non-empty*, a non-empty callback token is at most
64 characters, and the label is non-empty; construction with both
non-empty, or with neither non-empty, always fails. (Exactly one
*non-null* is refuted by the counterexample: an empty-string callback
together with a url constructs successfully with both fields
non-null.) -/
theorem C9_button_invariants (text : String) (cd url title : Option String) :
    (∀ b : InlineKeyboardButton, mkButton text cd url title = .ok b →
      b.text = text ∧ text ≠ ""
      ∧ truthy b.callback_data ≠ truthy b.url
      ∧ (∀ s, b.callback_data = some s → s ≠ "" → s.length ≤ 64))
    ∧ (text ≠ "" → truthy cd = true → truthy url = true →
        mkButton text cd url title
          = .error (.invalidButton
              "Button must have either callback_data or url, not both"))
    ∧ (text ≠ "" → truthy cd = false → truthy url = false →
        mkButton text cd url title
          = .error (.invalidButton
              "Button must define either callback_data or url")) := by
  have hlen_of_ne : text ≠ "" → ¬ (text.length < 1) := by
    intro ht hl
    apply ht
    cases text with
    | mk data =>
      cases data with
      | nil => rfl
      | cons c cs => simp [String.length] at hl
  refine ⟨?_, ?_, ?_⟩
  · intro b h
    unfold mkButton at h
    split at h
    · exact Except.noConfusion h
    next hlen =>
      have htext : text ≠ "" := by
        intro he
        subst he
        simp at hlen
      unfold onlyOneAction at h
      dsimp only at h
      split at h
      · exact Except.noConfusion h
      next hb1 =>
        split at h
        · exact Except.noConfusion h
        next hb2 =>
          split at h
          · exact Except.noConfusion h
          next hb3 =>
            injection h with hb
            subst hb
            refine ⟨rfl, htext, ?_, ?_⟩
            · cases hcd : truthy cd <;> cases hurl : truthy url <;>
                simp_all
            · intro s hs hne
              dsimp only at hs
              subst hs
              have htr : truthy (some s) = true := by
                simp [truthy, hne]
              simp only [htr, Bool.true_and, Bool.not_eq_true] at hb3
              simpa using hb3
  · intro ht hcd hurl
    unfold mkButton onlyOneAction
    rw [if_neg (hlen_of_ne ht), if_pos (by simp [hcd, hurl])]
  · intro ht hcd hurl
    unfold mkButton onlyOneAction
    rw [if_neg (hlen_of_ne ht), if_neg (by simp [hcd]),
      if_pos (by simp [hcd, hurl])]

/-- Witness for C9: a callback-only button constructs with exactly one
truthy action; both-truthy and neither-truthy constructions fail. -/
theorem C9_witness :
    mkButton "T" (some "go") none none
      = .ok { text := "T", callback_data := some "go", url := none,
              title := none }
    ∧ truthy (some "go") ≠ truthy (none : Option String)
    ∧ mkButton "T" (some "go") (some "https://x") none
      = .error (.invalidButton
          "Button must have either callback_data or url, not both")
    ∧ mkButton "T" none none none
      = .error (.invalidButton
          "Button must define either callback_data or url") := by
  refine ⟨rfl, ?_, ?_, ?_⟩
  · exact (((C9_button_invariants "T" (some "go") none none).1) _ rfl).2.2.1
  · exact (C9_button_invariants "T" (some "go") (some "https://x") none).2.1
      (by decide) (by decide) (by decide)
  · exact (C9_button_invariants "T" none none none).2.2
      (by decide) (by decide) (by decide)

/-- C9 counterexample: `callback_data = ""` together with a url
constructs successfully, yet both fields are non-null — refuting
"exactly one of {callback token, url} non-null" and "construction with
both non-null always fails". -/
theorem C9_counterexample :
    mkButton "T" (some "") (some "https://x") none
      = .ok { text := "T", callback_data := some "", url := some "https://x",
              title := none }
    ∧ (some "" : Option String) ≠ none
    ∧ (some "https://x" : Option String) ≠ none :=
  ⟨rfl, by simp, by simp⟩

theorem any_congr_of_mem_iff (p : String → Bool) {l1 l2 : List String}
    (h : ∀ t, t ∈ l1 ↔ t ∈ l2) : l1.any p = l2.any p := by
  rw [Bool.eq_iff_iff]
  simp only [List.any_eq_true]
  constructor
  · rintro ⟨x, hx, hpx⟩; exact ⟨x, (h x).mp hx, hpx⟩
  · rintro ⟨x, hx, hpx⟩; exact ⟨x, (h x).mpr hx, hpx⟩

theorem mem_map_iff_of_mem_iff (f : String → String) {l1 l2 : List String}
    (h : ∀ t, t ∈ l1 ↔ t ∈ l2) : ∀ t, t ∈ l1.map f ↔ t ∈ l2.map f := by
  intro t
  simp only [List.mem_map]
  constructor
  · rintro ⟨x, hx, rfl⟩; exact ⟨x, (h x).mp hx, rfl⟩
  · rintro ⟨x, hx, rfl⟩; exact ⟨x, (h x).mpr hx, rfl⟩

/-- `any_match` only tests existence over the token list, so it only
depends on the token list's membership. -/
theorem anyMatch_congr (rs : String → String → Bool) (mm : MatchMode)
    {c1 c2 : List String} (h : ∀ t, t ∈ c1 ↔ t ∈ c2) (n : String) :
    anyMatch rs mm c1 n = anyMatch rs mm c2 n := by
  cases mm <;> exact any_congr_of_mem_iff _ h

/-- C10: two messages whose keyboards expose the same *set* of callback
tokens (any row/column arrangement, grouping, or duplication) get the
same outcome class from `require_callbacks` under the same needles,
combinator, match mode and case sensitivity: both pass, or both raise the
missing-keyboard error, or both raise the unsatisfied-contract error. -/
theorem C10_outcome_depends_only_on_token_set (rs : String → String → Bool)
    (needles : List String) (mode : Combinator) (mm : MatchMode) (cs : Bool)
    (m1 m2 : MessageItem)
    (h : ∀ t, t ∈ collectCallbacks m1 ↔ t ∈ collectCallbacks m2) :
    outcomeOf (requireCallbacks rs (some m1) needles mode mm cs)
      = outcomeOf (requireCallbacks rs (some m2) needles mode mm cs) := by
  by_cases h1 : collectCallbacks m1 = []
  · have h2 : collectCallbacks m2 = [] := by
      rw [List.eq_nil_iff_forall_not_mem] at h1 ⊢
      intro t ht
      exact h1 t ((h t).mpr ht)
    simp [requireCallbacks, h1, h2, outcomeOf]
  · have h2 : collectCallbacks m2 ≠ [] := by
      intro he
      apply h1
      rw [List.eq_nil_iff_forall_not_mem] at he ⊢
      intro t ht
      exact he t ((h t).mp ht)
    rw [requireCallbacks_some rs m1 needles mode mm cs h1,
      requireCallbacks_some rs m2 needles mode mm cs h2]
    have hmap := mem_map_iff_of_mem_iff (pyNormalize cs) h
    cases mode with
    | all =>
      have heq : (needles.map (pyNormalize cs)).all
            (anyMatch rs mm ((collectCallbacks m1).map (pyNormalize cs)))
          = (needles.map (pyNormalize cs)).all
            (anyMatch rs mm ((collectCallbacks m2).map (pyNormalize cs))) := by
        congr 1
        funext n
        exact anyMatch_congr rs mm hmap n
      rw [heq]
      cases hb : (needles.map (pyNormalize cs)).all
          (anyMatch rs mm ((collectCallbacks m2).map (pyNormalize cs))) <;>
        simp [outcomeOf]
    | any =>
      have heq : (needles.map (pyNormalize cs)).any
            (anyMatch rs mm ((collectCallbacks m1).map (pyNormalize cs)))
          = (needles.map (pyNormalize cs)).any
            (anyMatch rs mm ((collectCallbacks m2).map (pyNormalize cs))) := by
        congr 1
        funext n
        exact anyMatch_congr rs mm hmap n
      rw [heq]
      cases hb : (needles.map (pyNormalize cs)).any
          (anyMatch rs mm ((collectCallbacks m2).map (pyNormalize cs))) <;>
        simp [outcomeOf]

/-- Witness for C10: a one-row keyboard `[[a, b]]` and a two-row keyboard
`[[b], [a, a]]` (reordered, regrouped, with a duplicate) get the same
outcome. -/
theorem C10_witness :
    outcomeOf (requireCallbacks noRegex (some (msgTokens ["a", "b"]))
        ["a"] .all .exact true)
      = outcomeOf (requireCallbacks noRegex
          (some { reply_markup := some { inline_keyboard :=
            [[{ text := "B", callback_data := some "b" }],
             [{ text := "B", callback_data := some "a" },
              { text := "B", callback_data := some "a" }]] } })
          ["a"] .all .exact true) := by
  apply C10_outcome_depends_only_on_token_set
  intro t
  show t ∈ ["a", "b"] ↔ t ∈ ["b", "a", "a"]
  constructor <;> intro ht <;> simp only [List.mem_cons] at ht ⊢ <;> tauto

end ChatBet
